import Mathlib

/-!
# Optimanage backend — shallow embedding and verification

Embedding of the Express/PostgreSQL workforce-scheduling backend in
`src/backend/server.js`.  Each route handler is translated into a pure Lean
function over an explicit database state (`DB`): the in-memory lists stand for
the `availability`, `schedule`, `shift`, `request`, `notifications` and
`employee` tables, and each handler returns the HTTP response it would send
together with the database state after its SQL statements have run.

JavaScript-specific behaviour that the handlers rely on is modelled
explicitly:
* request-body fields are `Option`-typed; a JS falsy check `!x` on a string
  field is `x.getD "" = ""` (absent or empty), on a numeric field
  `x.getD 0 = 0` (absent or zero);
* `parseFloat` / `Number` string-to-number coercions are `parseFloatQ` /
  `numberQ` (returning `none` for NaN), and any `>` / `>=` comparison
  involving NaN is `false` (`jsGT`, `jsDateGE`);
* `new Date("2024-01-01T" ++ s ++ "Z")` time-of-day parsing is `toTime`.
-/

/-! ## JavaScript-value semantics -/

/-- Decimal digit run: the numeric value of a list of digit characters. -/
def digitsToNat (l : List Char) : Nat :=
  l.foldl (fun a c => a * 10 + (c.toNat - 48)) 0

/-- Split a character list into its leading run of decimal digits and the rest. -/
def spanDigits : List Char → List Char × List Char
  | [] => ([], [])
  | c :: cs =>
    if c.isDigit then
      match spanDigits cs with
      | (d, r) => (c :: d, r)
    else ([], c :: cs)

/-- Whitespace characters skipped by JavaScript's numeric string coercions. -/
def jsWhitespace (c : Char) : Bool :=
  c == ' ' || c == '\t' || c == '\n' || c == '\r'

/-- JavaScript `parseFloat` on a string: skip leading whitespace, optional
sign, then the longest prefix of the form `digits[.digits]`; `none` models
`NaN` (no digit found).  Trailing junk is ignored, exactly as `parseFloat`
does.  (Exponents and `Infinity`, which no stored value in the claims uses,
are not modelled.) -/
def parseFloatQ (s : String) : Option ℚ :=
  match s.toList.dropWhile jsWhitespace with
  | l =>
    match (match l with
           | '-' :: r => ((-1 : Int), r)
           | '+' :: r => ((1 : Int), r)
           | _ => ((1 : Int), l)) with
    | (sgn, l2) =>
      match spanDigits l2 with
      | (ip, r1) =>
        match (match r1 with
               | '.' :: r => spanDigits r
               | _ => ([], r1)) with
        | (fp, _) =>
          if ip.length + fp.length = 0 then none
          else some (mkRat (sgn * (digitsToNat ip * 10 ^ fp.length + digitsToNat fp : Nat))
            (10 ^ fp.length))

/-- JavaScript `Number(...)` coercion of a string (the coercion applied when a
number is compared to a string with `>`): the whole trimmed string must be a
decimal numeral; the empty/blank string coerces to `0`; anything else is `NaN`
(`none`).  (Exponents, hex literals and `Infinity` are not modelled; no value
in the claims uses them.) -/
def numberQ (s : String) : Option ℚ :=
  match (s.toList.dropWhile jsWhitespace).reverse.dropWhile jsWhitespace |>.reverse with
  | [] => some 0
  | l =>
    match (match l with
           | '-' :: r => ((-1 : Int), r)
           | '+' :: r => ((1 : Int), r)
           | _ => ((1 : Int), l)) with
    | (sgn, l2) =>
      match spanDigits l2 with
      | (ip, r1) =>
        match (match r1 with
               | '.' :: r => spanDigits r
               | _ => ([], r1)) with
        | (fp, r2) =>
          if ip.length + fp.length = 0 ∨ ¬ r2.isEmpty then none
          else some (mkRat (sgn * (digitsToNat ip * 10 ^ fp.length + digitsToNat fp : Nat))
            (10 ^ fp.length))

/-- Two-digit field of an ISO time string. -/
def d2 (a b : Char) : Option Nat :=
  if a.isDigit && b.isDigit then some ((a.toNat - 48) * 10 + (b.toNat - 48)) else none

/-- Time-of-day parse performed by `new Date("2024-01-01T" ++ s ++ "Z")` in
the availability handler, as seconds since midnight.  The date part is the
fixed string `2024-01-01`, so comparing the two `Date` values is comparing
these offsets.  The accepted forms are the ISO `HH:mm` and `HH:mm:ss` shapes
with in-range fields; every other string yields an Invalid Date whose numeric
value is `NaN`, modelled as `none`.  (Fractional seconds, which no claim
exercises, are not modelled.) -/
def toTime (s : String) : Option Nat :=
  match s.toList with
  | [h1, h2, ':', m1, m2] =>
    match d2 h1 h2, d2 m1 m2 with
    | some h, some m => if h ≤ 23 && m ≤ 59 then some (h * 3600 + m * 60) else none
    | _, _ => none
  | [h1, h2, ':', m1, m2, ':', s1, s2] =>
    match d2 h1 h2, d2 m1 m2, d2 s1 s2 with
    | some h, some m, some sec =>
      if h ≤ 23 && m ≤ 59 && sec ≤ 59 then some (h * 3600 + m * 60 + sec) else none
    | _, _, _ => none
  | _ => none

/-- JavaScript `a >= b` on two `Date` values: `false` whenever either side is
an Invalid Date (`NaN` compares false), otherwise numeric comparison. -/
def jsDateGE : Option Nat → Option Nat → Bool
  | some a, some b => decide (b ≤ a)
  | _, _ => false

/-- JavaScript `a > b` where either side may be `NaN` (`none`): `NaN`
comparisons are `false`. -/
def jsGT : Option ℚ → Option ℚ → Bool
  | some a, some b => decide (b < a)
  | _, _ => false

/-! ## Data model -/

/-- Decoded JWT payload attached to `req.user` by `authenticateToken`. -/
structure AuthUser where
  sin : String
  role : String
deriving DecidableEq, Repr

/-- A row of the `availability` table. -/
structure AvailRow where
  sin : String
  weekday : String
  emp_start : String
  emp_end : String
deriving DecidableEq, Repr

/-- A row of the `schedule` table. -/
structure ScheduleRow where
  week : Int
  sin : String
  update_sin : String
deriving DecidableEq, Repr

/-- A row of the `shift` table. -/
structure ShiftRow where
  day : Int
  week : Int
  month : Int
  msin : String
  esin : String
  length : ℚ
deriving DecidableEq, Repr

/-- A row of the `request` table; `authorized = none` is the pending state. -/
structure RequestRow where
  id : Int
  week : Int
  day : Int
  fromsin : String
  tosin : String
  type : String
  authorized : Option Bool
deriving DecidableEq, Repr

/-- A row of the `notifications` table; `to_msin`/`to_sin` are the two
nullable destination columns, `request_id` is nullable. -/
structure NotificationRow where
  id : Int
  to_msin : Option String
  to_sin : Option String
  request_id : Option Int
  message : String
  read : Bool
deriving DecidableEq, Repr

/-- A row of the `employee` table (the columns the embedded handlers read). -/
structure EmployeeRow where
  sin : String
  name : String
  msin : String
  departmentid : Int
deriving DecidableEq, Repr

/-- The database state: one list per table, plus the serial-column counters
for the two tables whose handlers insert with generated ids. -/
structure DB where
  employees : List EmployeeRow
  availability : List AvailRow
  schedule : List ScheduleRow
  shifts : List ShiftRow
  requests : List RequestRow
  notifications : List NotificationRow
  nextRequestId : Int
  nextNotificationId : Int
deriving DecidableEq, Repr

/-- The observable part of an HTTP response: status code and the
message/error string of the JSON body. -/
structure HttpResult where
  status : Nat
  message : String
deriving DecidableEq, Repr

/-! ## Availability store (POST /availability, lines 487-524) -/

/-- The availability upsert
`INSERT ... ON CONFLICT (sin, weekday) DO UPDATE SET emp_start = $3, emp_end = $4`:
if a row with the key exists its window is replaced, otherwise a row is
appended. -/
def upsertAvail (rows : List AvailRow) (sinV weekdayV s e : String) : List AvailRow :=
  if rows.any (fun r => r.sin == sinV && r.weekday == weekdayV) then
    rows.map (fun r =>
      if r.sin == sinV && r.weekday == weekdayV then
        { r with emp_start := s, emp_end := e }
      else r)
  else rows ++ [⟨sinV, weekdayV, s, e⟩]

/-- First availability row for a key, projected to its time window (what
`SELECT emp_start, emp_end ... WHERE sin = $1 AND weekday = $2` retrieves). -/
def lookupAvail (rows : List AvailRow) (sinV weekdayV : String) : Option (String × String) :=
  (rows.find? (fun r => r.sin == sinV && r.weekday == weekdayV)).map
    (fun r => (r.emp_start, r.emp_end))

/-- Number of availability rows carrying a given (sin, weekday) key. -/
def countAvail (rows : List AvailRow) (sinV weekdayV : String) : Nat :=
  rows.countP (fun r => r.sin == sinV && r.weekday == weekdayV)

/-- POST /availability handler.  Presence of `weekday`, `emp_start`,
`emp_end` is the JS falsy test; the start-before-end guard compares the two
`Date` values built from the raw strings (`jsDateGE` of `toTime`), so when a
value fails to parse the guard's `NaN` comparison is `false` and the upsert
proceeds with the raw strings. -/
def postAvailability (userSin : String) (weekday emp_start emp_end : Option String)
    (db : DB) : HttpResult × DB :=
  if weekday.getD "" = "" ∨ emp_start.getD "" = "" ∨ emp_end.getD "" = "" then
    (⟨400, "Weekday, from, and to values are required"⟩, db)
  else if jsDateGE (toTime (emp_start.getD "")) (toTime (emp_end.getD "")) then
    (⟨400, "Start time must be earlier than end time"⟩, db)
  else
    (⟨200, "Availability updated successfully"⟩,
      { db with availability :=
          upsertAvail db.availability userSin (weekday.getD "") (emp_start.getD "") (emp_end.getD "") })

/-! ### Store lemmas for the upsert -/

theorem map_id_of_mem {α : Type} (l : List α) (f : α → α) (h : ∀ x ∈ l, f x = x) :
    l.map f = l := by
  induction l with
  | nil => rfl
  | cons a t ih =>
    simp only [List.map_cons, List.cons.injEq]
    exact ⟨h a (List.mem_cons_self a t), ih (fun x hx => h x (List.mem_cons_of_mem a hx))⟩

theorem lookupAvail_upsert (rows : List AvailRow) (k w s e : String) :
    lookupAvail (upsertAvail rows k w s e) k w = some (s, e) := by
  unfold upsertAvail lookupAvail
  by_cases h : rows.any (fun r => r.sin == k && r.weekday == w)
  · rw [if_pos h]
    induction rows with
    | nil => simp at h
    | cons a t ih =>
      simp only [List.any_cons, Bool.or_eq_true] at h
      by_cases ha : a.sin == k && a.weekday == w
      · simp [List.find?, ha]
      · rcases h with h | h
        · exact absurd h ha
        · simp only [List.map_cons, if_neg ha, List.find?]
          rw [Bool.of_not_eq_true ha]
          exact ih h
  · rw [if_neg h]
    have hnone : rows.find? (fun r => r.sin == k && r.weekday == w) = none := by
      rw [List.find?_eq_none]
      intro x hx
      intro hpx
      exact h (List.any_eq_true.mpr ⟨x, hx, hpx⟩)
    rw [List.find?_append, hnone]
    simp [List.find?]

theorem countP_map_update (rows : List AvailRow) (k w s e : String) :
    (rows.map (fun r =>
        if r.sin == k && r.weekday == w then { r with emp_start := s, emp_end := e } else r)).countP
          (fun r => r.sin == k && r.weekday == w)
      = rows.countP (fun r => r.sin == k && r.weekday == w) := by
  induction rows with
  | nil => rfl
  | cons a t ih =>
    by_cases ha : a.sin == k && a.weekday == w
    · simp only [List.map_cons, if_pos ha, List.countP_cons]
      rw [ih]
    · simp only [List.map_cons, if_neg ha, List.countP_cons]
      rw [ih]

theorem countAvail_upsert_le_one (rows : List AvailRow) (k w s e : String)
    (h1 : countAvail rows k w ≤ 1) :
    countAvail (upsertAvail rows k w s e) k w ≤ 1 := by
  unfold upsertAvail countAvail
  by_cases h : rows.any (fun r => r.sin == k && r.weekday == w)
  · rw [if_pos h]
    rw [countP_map_update]
    exact h1
  · rw [if_neg h]
    rw [List.countP_append]
    have hz : rows.countP (fun r => r.sin == k && r.weekday == w) = 0 := by
      rw [List.countP_eq_zero]
      intro x hx hpx
      exact h (List.any_eq_true.mpr ⟨x, hx, hpx⟩)
    rw [hz]
    simp [List.countP, List.countP.go]

/-! ## Schedule assignment (POST /schedule, lines 572-641) -/

/-- Outcome of the POST /schedule handler: either an HTTP response with the
resulting database state, or an uncaught runtime exception. -/
inductive ScheduleOutcome where
  | crash (message : String)
  | response (result : HttpResult) (db : DB)
deriving DecidableEq, Repr

/-- POST /schedule handler.  Line 574 of the source reads the caller's role
from `res.user.role` — `res` is the *response* object, which has no `user`
field; the decoded token lives on `req.user`.  In JavaScript this property
access on `undefined` throws a `TypeError`, and it happens on the line before
the `try` block is entered, so no catch handler runs: every invocation of the
endpoint aborts with an uncaught exception before any validation, role check
or database statement.  The remainder of the handler (role check, week and
employee validation, the schedule upsert) is unreachable. -/
def postSchedule (_user : AuthUser) (_employeeSin _week : Option String) (_db : DB) :
    ScheduleOutcome :=
  ScheduleOutcome.crash "TypeError: Cannot read properties of undefined (reading 'role')"

/-! ## Shift creation (POST /shift, lines 644-738) -/

/-- The `weekdayMap` object (lines 644-652): integers 1-7 to weekday names.
Out-of-range lookups yield `undefined` in JavaScript; the handler only
evaluates the map after the 1-7 range check, so that case is unreachable and
is given the sentinel value below. -/
def weekdayName : Int → String
  | 1 => "Monday"
  | 2 => "Tuesday"
  | 3 => "Wednesday"
  | 4 => "Thursday"
  | 5 => "Friday"
  | 6 => "Saturday"
  | 7 => "Sunday"
  | _ => "undefined"

/-- Line 696 of the source guards on `scheduleResult.rows.legth === 0`;
`legth` is a misspelling of `length`, so the property read yields `undefined`
and `undefined === 0` is `false`.  The transcribed guard is therefore the
constant `false`: the "Employee is not scheduled for this week" rejection can
never fire, whatever the schedule query returned. -/
def scheduleRowsLegthIsZero : Bool := false

/-- Whether a shift row with the given (day, week, month, esin) key already
exists.  Modelled from the spec: the schema file is not under `src/`; spec
§3 and §4.3(5) state the shift table carries storage-layer uniqueness on this
key, so a duplicate insert raises and the handler's catch answers 500. -/
def shiftKeyTaken (db : DB) (day week month : Int) (esin : String) : Bool :=
  db.shifts.any (fun t => t.day == day && t.week == week && t.month == month && t.esin == esin)

/-- The `INSERT INTO shift` step of POST /shift (lines 727-733), including the
spec-modelled uniqueness constraint of `shiftKeyTaken`. -/
def insertShiftRow (db : DB) (day week month : Int) (msin esin : String) (len : ℚ) :
    HttpResult × DB :=
  if shiftKeyTaken db day week month esin then (⟨500, "Failed to create shift"⟩, db)
  else
    (⟨201, "Shift created scuccessfully"⟩,
      { db with shifts := db.shifts ++ [⟨day, week, month, msin, esin, len⟩] })

/-- POST /shift handler.  `user` is the decoded token (any role: the handler
performs no role check, it only reads `req.user.sin` as the manager SIN).
Body fields are JS-falsy-checked, range-checked, then:
* the schedule query runs but its result is only consulted through the
  misspelled `rows.legth` property (`scheduleRowsLegthIsZero`), so the
  not-scheduled rejection is unreachable;
* if an availability row exists for (esin, weekday-of(day)), the shift is
  rejected when `parseFloat(emp_start) + parseFloat(length) > emp_end`, where
  the right-hand side is the JS `Number` coercion of the stored value and a
  `NaN` on either side makes the comparison false (`jsGT`);
* otherwise the row is inserted. -/
def postShift (user : AuthUser) (day week month : Option Int) (esin : Option String)
    (length : Option ℚ) (db : DB) : HttpResult × DB :=
  if day.getD 0 = 0 ∨ week.getD 0 = 0 ∨ month.getD 0 = 0 ∨ esin.getD "" = "" ∨
      length.getD 0 = 0 then
    (⟨400, "All fields (day, week, month, esin, length) are required"⟩, db)
  else if day.getD 0 < 1 ∨ 7 < day.getD 0 then
    (⟨400, "Invalid day value. It must be an integer between 1 and 7"⟩, db)
  else if week.getD 0 < 1 ∨ 52 < week.getD 0 then
    (⟨400, "Invalid week value. It must be an integer between 1 and 52"⟩, db)
  else if month.getD 0 < 1 ∨ 12 < month.getD 0 then
    (⟨400, "Invalid month value. It must be an integer between 1 and 12"⟩, db)
  else if length.getD 0 ≤ 0 then
    (⟨400, "Shift length must be greater than 0"⟩, db)
  else if scheduleRowsLegthIsZero then
    (⟨400, "Employee is not scheduled for this week"⟩, db)
  else
    if 0 < (db.availability.filter
        (fun a => a.sin == esin.getD "" && a.weekday == weekdayName (day.getD 0))).length then
      if jsGT ((parseFloatQ ((db.availability.filter
              (fun a => a.sin == esin.getD "" && a.weekday == weekdayName (day.getD 0))).headD
              ⟨"", "", "", ""⟩).emp_start).map (fun x => x + length.getD 0))
          (numberQ ((db.availability.filter
              (fun a => a.sin == esin.getD "" && a.weekday == weekdayName (day.getD 0))).headD
              ⟨"", "", "", ""⟩).emp_end) then
        (⟨400, "Shift exceeds employee availability"⟩, db)
      else
        insertShiftRow db (day.getD 0) (week.getD 0) (month.getD 0) user.sin (esin.getD "")
          (length.getD 0)
    else
      insertShiftRow db (day.getD 0) (week.getD 0) (month.getD 0) user.sin (esin.getD "")
        (length.getD 0)

/-! ## Requests and notifications -/

/-- POST /add-request handler (lines 303-358).  `bodyRequestId` is the
`requestId` field destructured from the request body on line 306.  The insert
into `request` uses `RETURNING id`, but the returned id is never read: the
notification's `request_id` column receives the body's `requestId` value
(line 348), which is `NULL` when the client sent none. -/
def addRequest (userSin : String) (bodyRequestId : Option Int) (week day : Option Int)
    (type : Option String) (db : DB) : HttpResult × DB :=
  if week.getD 0 = 0 ∨ day.getD 0 = 0 ∨ type.getD "" = "" then
    (⟨400, "Week, day, and type are required."⟩, db)
  else
    match db.employees.find? (fun emp => emp.sin == userSin) with
    | none => (⟨400, "Employee SIN not found"⟩, db)
    | some emp =>
      (⟨201, "Request created successfully and manager notified "⟩,
        { db with
            requests := db.requests ++
              [⟨db.nextRequestId, week.getD 0, day.getD 0, userSin, emp.msin,
                type.getD "", none⟩],
            notifications := db.notifications ++
              [⟨db.nextNotificationId, some emp.msin, none, bodyRequestId,
                "New request from employee " ++ userSin ++ " for " ++ type.getD "", false⟩],
            nextRequestId := db.nextRequestId + 1,
            nextNotificationId := db.nextNotificationId + 1 })

/-- PATCH /authorize-request/:id handler (lines 360-420).  `requestId` is the
parsed path parameter (`none` models `NaN`), `authorized` the body flag
(`none` models a non-boolean value).  The update statement touches exactly the
request rows matching `id = requestId AND tosin = <caller's SIN>`; when no row
matches, 404 is returned and nothing further happens, otherwise the first
returned row feeds the employee notification. -/
def authorizeRequest (userSin : String) : Option Int → Option Bool → DB → HttpResult × DB
  | none, _, db => (⟨400, "Invalid request ID"⟩, db)
  | some _, none, db => (⟨400, "Authorized value must be true or false"⟩, db)
  | some rid, some b, db =>
    match db.requests.filter (fun r => r.id == rid && r.tosin == userSin) with
    | [] => (⟨404, "Request not found or you are not authorized to update it"⟩, db)
    | r0 :: _ =>
      (⟨200, "Request " ++ (if b then "approved" else "rejected") ++
          " successfully and employee notified."⟩,
        { db with
            requests := db.requests.map (fun r =>
              if r.id == rid && r.tosin == userSin then { r with authorized := some b }
              else r),
            notifications := db.notifications ++
              [⟨db.nextNotificationId, none, some r0.fromsin, some rid,
                "Your request for " ++ r0.type ++ " has been " ++
                  (if b then "approved" else "rejected"), false⟩],
            nextNotificationId := db.nextNotificationId + 1 })

/-- PATCH /notifications/:id/read handler (lines 458-484).  The update is
`SET read = TRUE WHERE id = $1`: the row count it reports counts every row
matching the id, whether or not it was already read. -/
def markNotificationRead : Option Int → DB → HttpResult × DB
  | none, db => (⟨400, "Invalid notification ID"⟩, db)
  | some id, db =>
    if db.notifications.countP (fun n => n.id == id) = 0 then
      (⟨404, "Notification not found or already marked as read"⟩,
        { db with notifications := db.notifications.map (fun n =>
            if n.id == id then { n with read := true } else n) })
    else
      (⟨200, "Notification marked as read"⟩,
        { db with notifications := db.notifications.map (fun n =>
            if n.id == id then { n with read := true } else n) })

/-! ## Department shift listing (GET /shifts/department, lines 772-817) -/

/-- Leading-segment test on character lists. -/
def takesLead : List Char → List Char → Bool
  | [], _ => true
  | _ :: _, [] => false
  | a :: as, b :: bs => a == b && takesLead as bs

/-- Substring occurrence test on character lists. -/
def hasSubSeq (needle : List Char) : List Char → Bool
  | [] => needle.isEmpty
  | c :: cs => takesLead needle (c :: cs) || hasSubSeq needle cs

/-- Whether `needle` occurs as a contiguous substring of `hay`. -/
def containsText (needle hay : String) : Bool :=
  hasSubSeq needle.toList hay.toList

/-- The SQL text built by GET /shifts/department, transcribed from the
template literal on lines 778-783 plus the conditional concatenations on
lines 787-796 (internal runs of whitespace are normalised to single spaces;
the concatenations append with *no* separating space, exactly as in the
source, which is why `$1AND`, `$2AND` and `ORDER` are glued to what precedes
them).  Only presence of the filters matters: the filter values are passed as
query parameters, not spliced into the text. -/
def departmentShiftsQuery (week month : Option String) : String :=
  (match month with
   | some _ =>
     (match week with
      | some _ =>
        "SELECT s.day, s.week, s.month, s.length, s.esin, employee.name AS employee_name FROM shift AS s INNER JOIN employee ON shift.esin = employee.sin INNER JOIN department ON employee.departmentid = department.departmentid WHERE department.msin = $1" ++
          "AND s.week = $2" ++ "AND s.month = $3"
      | none =>
        "SELECT s.day, s.week, s.month, s.length, s.esin, employee.name AS employee_name FROM shift AS s INNER JOIN employee ON shift.esin = employee.sin INNER JOIN department ON employee.departmentid = department.departmentid WHERE department.msin = $1" ++
          "AND s.month = $2")
   | none =>
     (match week with
      | some _ =>
        "SELECT s.day, s.week, s.month, s.length, s.esin, employee.name AS employee_name FROM shift AS s INNER JOIN employee ON shift.esin = employee.sin INNER JOIN department ON employee.departmentid = department.departmentid WHERE department.msin = $1" ++
          "AND s.week = $2"
      | none =>
        "SELECT s.day, s.week, s.month, s.length, s.esin, employee.name AS employee_name FROM shift AS s INNER JOIN employee ON shift.esin = employee.sin INNER JOIN department ON employee.departmentid = department.departmentid WHERE department.msin = $1")) ++
    "ORDER BY shift.week, shift.day"

/-- Modelled from PostgreSQL semantics: once a FROM item is aliased
(`FROM shift AS s`), the table's original name may no longer be used as a
column qualifier; a query that still writes `shift.<column>` is rejected with
error 42P01 ("invalid reference to FROM-clause entry for table shift") before
any row is read.  This predicate detects that misreference in the
department-shifts query text. -/
def referencesAliasedShift (q : String) : Bool :=
  containsText "FROM shift AS s" q && containsText "shift." q

/-- GET /shifts/department handler.  The query it builds
(`departmentShiftsQuery`) aliases `shift AS s` yet refers to `shift.esin` in
its join condition and to `shift.week, shift.day` in its ORDER BY clause, so
`pool.query` throws on every invocation (`referencesAliasedShift`) and the
catch block answers 500; the row-formatting code after the query is
unreachable, and the response body of that unreachable success path is not
modelled. -/
def getShiftsDepartment (_user : AuthUser) (week month : Option String) (db : DB) :
    HttpResult × DB :=
  if referencesAliasedShift (departmentShiftsQuery week month) then
    (⟨500, "Failed to get department shifts"⟩, db)
  else
    (⟨200, ""⟩, db)

/-! ## Claim theorems -/

/-- An empty database state. -/
def dbEmpty : DB := ⟨[], [], [], [], [], [], 1, 1⟩

/-- C3: the claim says assignSchedule validates the employee and performs an
atomic upsert keyed on (employeeId, week); in the code, every invocation of
POST /schedule crashes with an uncaught TypeError before any validation or
database statement, because line 574 reads the role from `res.user.role`
instead of `req.user.role`. -/
theorem schedule_assignment_always_crashes (user : AuthUser) (employeeSin week : Option String)
    (db : DB) :
    postSchedule user employeeSin week db =
      ScheduleOutcome.crash "TypeError: Cannot read properties of undefined (reading 'role')" :=
  rfl

/-- C8: the claim says listShiftsForDepartment returns the department's
shifts ordered by (week, day); in the code the SQL aliases `shift AS s` but
still references `shift.esin` (and `shift.week, shift.day`), which PostgreSQL
rejects, so the handler answers 500 on every invocation, whatever the caller,
filters and database state. -/
theorem department_shifts_always_500 (user : AuthUser) (week month : Option String) (db : DB) :
    getShiftsDepartment user week month db = (⟨500, "Failed to get department shifts"⟩, db) := by
  cases week <;> cases month <;> rfl

/-- C6: availability upserts on one (employee, weekday) key.  A call whose
start and end both parse as times with start ≥ end is rejected with the
validation error and leaves the store untouched; a successful call makes the
submitted (start, end) pair the one retrievable window for the key; and a key
holding at most one row keeps at most one row.  (The sequence-level claim
follows by induction on the calls: part three is the preserved invariant and
part two identifies the retrievable window after the latest success.) -/
theorem availability_upsert_contract (userSin w s e : String) (db : DB)
    (hw : w ≠ "") (hs : s ≠ "") (he : e ≠ "") :
    (∀ ts te, toTime s = some ts → toTime e = some te → te ≤ ts →
        postAvailability userSin (some w) (some s) (some e) db =
          (⟨400, "Start time must be earlier than end time"⟩, db))
    ∧ ((postAvailability userSin (some w) (some s) (some e) db).1.status = 200 →
        lookupAvail (postAvailability userSin (some w) (some s) (some e) db).2.availability
          userSin w = some (s, e))
    ∧ (countAvail db.availability userSin w ≤ 1 →
        countAvail (postAvailability userSin (some w) (some s) (some e) db).2.availability
          userSin w ≤ 1) := by
  have hpres : ¬(w = "" ∨ s = "" ∨ e = "") := by simp [hw, hs, he]
  refine ⟨?_, ?_, ?_⟩
  · intro ts te hts hte hle
    unfold postAvailability
    simp only [Option.getD_some]
    rw [if_neg hpres, hts, hte]
    simp [jsDateGE, hle]
  · unfold postAvailability
    simp only [Option.getD_some]
    rw [if_neg hpres]
    by_cases hge : jsDateGE (toTime s) (toTime e)
    · rw [if_pos hge]
      intro h
      simp at h
    · rw [if_neg hge]
      intro _
      exact lookupAvail_upsert db.availability userSin w s e
  · unfold postAvailability
    simp only [Option.getD_some]
    rw [if_neg hpres]
    by_cases hge : jsDateGE (toTime s) (toTime e)
    · rw [if_pos hge]
      exact id
    · rw [if_neg hge]
      exact countAvail_upsert_le_one db.availability userSin w s e

/-- Witness for C6 at a concrete rejected call: start 17:00, end 09:00. -/
theorem availability_upsert_contract_witness :
    postAvailability "E1" (some "Monday") (some "17:00") (some "09:00") dbEmpty =
      (⟨400, "Start time must be earlier than end time"⟩, dbEmpty) :=
  (availability_upsert_contract "E1" "Monday" "17:00" "09:00" dbEmpty (by decide) (by decide)
    (by decide)).1 61200 32400 (by decide) (by decide) (by decide)

/-- C10: when a present, non-empty availability value does not parse as a
time of day, the constructed Date is invalid, the NaN comparison in the
start-before-end guard is false, and the upsert proceeds, storing the raw
unparseable strings. -/
theorem availability_unparseable_bypass (userSin w s e : String) (db : DB)
    (hw : w ≠ "") (hs : s ≠ "") (he : e ≠ "")
    (hnan : toTime s = none ∨ toTime e = none) :
    postAvailability userSin (some w) (some s) (some e) db =
      (⟨200, "Availability updated successfully"⟩,
        { db with availability := upsertAvail db.availability userSin w s e })
    ∧ lookupAvail (upsertAvail db.availability userSin w s e) userSin w = some (s, e) := by
  constructor
  · unfold postAvailability
    simp only [Option.getD_some]
    rw [if_neg (by simp [hw, hs, he])]
    have hfalse : jsDateGE (toTime s) (toTime e) = false := by
      rcases hnan with h | h
      · rw [h]
        rfl
      · rw [h]
        cases toTime s <;> rfl
    rw [hfalse]
    simp
  · exact lookupAvail_upsert db.availability userSin w s e

/-- Witness for C10: `emp_start = "banana"` is stored untouched. -/
theorem availability_unparseable_bypass_witness :
    postAvailability "E1" (some "Monday") (some "banana") (some "17:00") dbEmpty =
      (⟨200, "Availability updated successfully"⟩,
        { dbEmpty with availability := upsertAvail dbEmpty.availability "E1" "Monday" "banana" "17:00" })
    ∧ lookupAvail (upsertAvail dbEmpty.availability "E1" "Monday" "banana" "17:00") "E1" "Monday" =
        some ("banana", "17:00") :=
  availability_unparseable_bypass "E1" "Monday" "banana" "17:00" dbEmpty (by decide) (by decide)
    (by decide) (Or.inl (by decide))

/-- A notification store holding a single, already-read notification. -/
def dbAlreadyRead : DB :=
  ⟨[], [], [], [], [], [⟨1, none, some "E1", none, "Your request for vacation has been approved", true⟩], 1, 2⟩

/-- Counterexample to C9 as stated: the claim says a notification that exists
but was already marked read is "no row matched" and fails with NotFoundError;
on the code the UPDATE's WHERE clause matches on the id alone, so the call
reports success (200), not 404. -/
theorem mark_read_already_read_not_404 :
    (markNotificationRead (some 1) dbAlreadyRead).1.status = 200 ∧
      (markNotificationRead (some 1) dbAlreadyRead).1.status ≠ 404 := by
  decide

/-- C9 (amended): markNotificationRead with a numeric id sets the read flag
of every notification with that id and reports success whenever such a row
exists — including one already marked read, which the WHERE clause (id only)
still matches; it fails with NotFoundError exactly when no row with that id
exists, in which case the store is unchanged. -/
theorem mark_read_matches_by_id (id : Int) (db : DB) :
    (db.notifications.countP (fun n => n.id == id) = 0 →
        markNotificationRead (some id) db =
          (⟨404, "Notification not found or already marked as read"⟩, db))
    ∧ (db.notifications.countP (fun n => n.id == id) ≠ 0 →
        (markNotificationRead (some id) db).1 = ⟨200, "Notification marked as read"⟩
        ∧ ∀ n ∈ (markNotificationRead (some id) db).2.notifications,
            n.id = id → n.read = true) := by
  constructor
  · intro hz
    simp only [markNotificationRead]
    rw [if_pos hz]
    have hid : db.notifications.map (fun n => if n.id == id then { n with read := true } else n)
        = db.notifications := by
      refine map_id_of_mem _ _ (fun n hn => ?_)
      have : ¬(n.id == id) = true := by
        intro hmem
        have := List.countP_eq_zero.mp hz n hn
        exact this hmem
      rw [if_neg this]
    rw [hid]
  · intro hnz
    simp only [markNotificationRead]
    rw [if_neg hnz]
    refine ⟨rfl, ?_⟩
    intro n hn hid
    simp only at hn
    rcases List.mem_map.mp hn with ⟨m, _, hm⟩
    by_cases hmid : m.id == id
    · rw [if_pos hmid] at hm
      rw [← hm]
    · rw [if_neg hmid] at hm
      subst hm
      exact absurd (beq_iff_eq.mpr hid) hmid

/-- Witness for C9's amended theorem: the already-read row is matched again
and the call succeeds. -/
theorem mark_read_matches_by_id_witness :
    (markNotificationRead (some 1) dbAlreadyRead).1 = ⟨200, "Notification marked as read"⟩ :=
  ((mark_read_matches_by_id 1 dbAlreadyRead).2 (by decide)).1

/-- A request store with one pending request from employee E1 to manager M1. -/
def dbOneRequest : DB :=
  ⟨[], [], [], [], [⟨1, 2, 3, "E1", "M1", "vacation", none⟩], [], 2, 1⟩

/-- C4: with a valid numeric request id and boolean flag, the authorization
update only touches request rows whose destination manager is the caller;
when no request matches (id, tosin = caller) — even though a request with
that id may exist for another manager — the handler answers 404 and the
database (requests *and* notifications) is unchanged. -/
theorem authorize_request_owner_guard (userSin : String) (rid : Int) (b : Bool) (db : DB) :
    ((∀ r ∈ db.requests, r.id = rid → r.tosin ≠ userSin) →
        authorizeRequest userSin (some rid) (some b) db =
          (⟨404, "Request not found or you are not authorized to update it"⟩, db))
    ∧ (∀ r ∈ db.requests, r.tosin ≠ userSin →
        r ∈ (authorizeRequest userSin (some rid) (some b) db).2.requests) := by
  constructor
  · intro h
    have hfil : db.requests.filter (fun r => r.id == rid && r.tosin == userSin) = [] := by
      rw [List.filter_eq_nil_iff]
      intro r hr
      simp only [Bool.and_eq_true, beq_iff_eq, not_and]
      exact h r hr
    simp only [authorizeRequest]
    rw [hfil]
  · intro r hr hne
    simp only [authorizeRequest]
    have hfr : (r.id == rid && r.tosin == userSin) = false := by
      simp only [Bool.and_eq_false_iff, beq_eq_false_iff_ne, ne_eq]
      exact Or.inr hne
    cases hfil : db.requests.filter (fun r => r.id == rid && r.tosin == userSin) with
    | nil =>
      exact hr
    | cons r0 rest =>
      refine List.mem_map.mpr ⟨r, hr, ?_⟩
      rw [hfr]
      simp

/-- Witness for C4: manager M2 is not the destination of request 1 (M1 is),
so the authorization attempt yields 404 and the store is untouched. -/
theorem authorize_request_owner_guard_witness :
    authorizeRequest "M2" (some 1) (some true) dbOneRequest =
      (⟨404, "Request not found or you are not authorized to update it"⟩, dbOneRequest) :=
  (authorize_request_owner_guard "M2" 1 true dbOneRequest).1 (by decide)

/-- C1: the claim says a createShift call with valid fields is rejected with
"not scheduled for this week" when no ScheduleAssignment row exists for
(employeeId, week); in the code the guard tests the misspelled
`rows.legth` property, `undefined === 0` is false, and the shift is inserted
anyway: here the schedule table is empty, yet the call answers 201 and a
Shift row appears. -/
theorem shift_inserted_without_schedule_assignment :
    dbEmpty.schedule = []
    ∧ postShift ⟨"M1", "manager"⟩ (some 1) (some 3) (some 1) (some "E1") (some 8) dbEmpty
        = (⟨201, "Shift created scuccessfully"⟩,
            { dbEmpty with shifts := [⟨1, 3, 1, "M1", "E1", 8⟩] }) := by
  constructor
  · rfl
  · decide

/-- C7 (amended): POST /shift performs no role check — `authenticateToken`
only verifies the token, and the handler reads `req.user.sin` as the manager
SIN without inspecting `req.user.role`.  Any authenticated caller, whatever
the role recorded in the token, passes field and range validation and gets a
201 with the shift inserted, the caller's own SIN recorded as `msin`. -/
theorem shift_creation_ignores_role (msin role : String) (day week month : Int) (esin : String)
    (len : ℚ) (db : DB)
    (hd1 : 1 ≤ day) (hd7 : day ≤ 7) (hw1 : 1 ≤ week) (hw52 : week ≤ 52)
    (hm1 : 1 ≤ month) (hm12 : month ≤ 12) (hlen : 0 < len) (hesin : esin ≠ "")
    (hav : db.availability.filter
        (fun a => a.sin == esin && a.weekday == weekdayName day) = [])
    (hdup : shiftKeyTaken db day week month esin = false) :
    postShift ⟨msin, role⟩ (some day) (some week) (some month) (some esin) (some len) db
      = (⟨201, "Shift created scuccessfully"⟩,
         { db with shifts := db.shifts ++ [⟨day, week, month, msin, esin, len⟩] }) := by
  unfold postShift
  simp only [Option.getD_some]
  rw [if_neg (by push_neg; exact ⟨by omega, by omega, by omega, hesin, hlen.ne'⟩)]
  rw [if_neg (by omega), if_neg (by omega), if_neg (by omega), if_neg (not_le.mpr hlen)]
  rw [if_neg (by simp [scheduleRowsLegthIsZero])]
  rw [hav]
  rw [if_neg (by simp)]
  unfold insertShiftRow
  rw [if_neg (by simp [hdup])]

/-- Counterexample to C7 as stated: the claim says a call authenticated with
an employee-role token creates no Shift row and receives an authorization
failure rather than a 201; here an employee-role token gets a 201 and the
shift list becomes non-empty. -/
theorem shift_creation_accepts_employee_token :
    (postShift ⟨"E9", "employee"⟩ (some 2) (some 4) (some 2) (some "E1") (some 5) dbEmpty).1.status
        = 201
    ∧ (postShift ⟨"E9", "employee"⟩ (some 2) (some 4) (some 2) (some "E1") (some 5) dbEmpty).2.shifts
        ≠ [] := by
  decide

/-- Witness for C7's amended theorem, instantiated at an employee-role
token. -/
theorem shift_creation_ignores_role_witness :
    postShift ⟨"E9", "employee"⟩ (some 1) (some 3) (some 1) (some "E1") (some 8) dbEmpty
      = (⟨201, "Shift created scuccessfully"⟩,
         { dbEmpty with shifts := dbEmpty.shifts ++ [⟨1, 3, 1, "E9", "E1", 8⟩] }) :=
  shift_creation_ignores_role "E9" "employee" 1 3 1 "E1" 8 dbEmpty (by decide) (by decide)
    (by decide) (by decide) (by decide) (by decide) (by decide) (by decide) (by decide) (by decide)

/-- C2: when an availability row exists for (employeeId, weekday-of(day)) and
its stored window parses numerically the way the handler reads it
(`parseFloat` for the start, `Number` coercion for the end), a field- and
range-valid createShift is accepted exactly when start + length ≤ end —
in particular the boundary start + length = end is accepted — and otherwise
rejected with "Shift exceeds employee availability", leaving the database
unchanged. -/
theorem shift_availability_window (user : AuthUser) (day week month : Int) (esin : String)
    (len sv ev : ℚ) (arow : AvailRow) (rest : List AvailRow) (db : DB)
    (hd1 : 1 ≤ day) (hd7 : day ≤ 7) (hw1 : 1 ≤ week) (hw52 : week ≤ 52)
    (hm1 : 1 ≤ month) (hm12 : month ≤ 12) (hlen : 0 < len) (hesin : esin ≠ "")
    (hdup : shiftKeyTaken db day week month esin = false)
    (hrow : db.availability.filter
        (fun a => a.sin == esin && a.weekday == weekdayName day) = arow :: rest)
    (hs : parseFloatQ arow.emp_start = some sv) (he : numberQ arow.emp_end = some ev) :
    ((postShift user (some day) (some week) (some month) (some esin) (some len) db).1.status = 201
        ↔ sv + len ≤ ev)
    ∧ (ev < sv + len →
        postShift user (some day) (some week) (some month) (some esin) (some len) db
          = (⟨400, "Shift exceeds employee availability"⟩, db)) := by
  unfold postShift
  simp only [Option.getD_some]
  rw [if_neg (by push_neg; exact ⟨by omega, by omega, by omega, hesin, hlen.ne'⟩)]
  rw [if_neg (by omega), if_neg (by omega), if_neg (by omega), if_neg (not_le.mpr hlen)]
  rw [if_neg (by simp [scheduleRowsLegthIsZero])]
  rw [hrow]
  rw [if_pos (by simp)]
  simp only [List.headD_cons]
  simp only [hs, he, Option.map_some']
  by_cases hcmp : ev < sv + len
  · rw [if_pos (by simp only [jsGT, decide_eq_true_eq]; exact hcmp)]
    exact ⟨⟨fun h => absurd h (by simp), fun h => absurd h (not_le.mpr hcmp)⟩, fun _ => rfl⟩
  · rw [if_neg (by simp only [jsGT, decide_eq_true_eq]; exact hcmp)]
    unfold insertShiftRow
    rw [if_neg (by simp [hdup])]
    exact ⟨⟨fun _ => not_lt.mp hcmp, fun _ => rfl⟩, fun hc => absurd hc hcmp⟩

/-- Availability 9.0-17.0 on Monday for E1 (scenario A's store). -/
def dbAvail : DB :=
  ⟨[], [⟨"E1", "Monday", "9.0", "17.0"⟩], [⟨3, "E1", "M1"⟩], [], [], [], 1, 1⟩

/-- The boundary arithmetic of scenario A. -/
theorem nine_plus_eight_le_seventeen : (9 : ℚ) + 8 ≤ 17 := by norm_num

/-- Witness for C2 at scenario A's boundary case: window 9.0-17.0, length 8,
9 + 8 = 17 ≤ 17, accepted with 201. -/
theorem shift_availability_window_witness :
    (postShift ⟨"M1", "manager"⟩ (some 1) (some 3) (some 1) (some "E1") (some 8) dbAvail).1.status
      = 201 :=
  (shift_availability_window ⟨"M1", "manager"⟩ 1 3 1 "E1" 8 9 17 ⟨"E1", "Monday", "9.0", "17.0"⟩
      [] dbAvail (by decide) (by decide) (by decide) (by decide) (by decide) (by decide)
      (by decide) (by decide) (by decide) (by decide) (by decide) (by decide)).1.mpr
    nine_plus_eight_le_seventeen

/-- An employee directory with E1 managed by M1. -/
def dbOneEmployee : DB := ⟨[⟨"E1", "Eve", "M1", 1⟩], [], [], [], [], [], 1, 1⟩

/-- C5: the claim says the notification created by a successful createRequest
references the identifier of the Request row just created; in the code the
insert's `RETURNING id` is never read and the notification's `request_id`
column receives the `requestId` field of the request body — `NULL` when the
client sent none, as here.  Exactly one notification is created, addressed to
the resolved manager with the claimed message template, but its referenced
request identifier is `none` while the Request row just created has id 1. -/
theorem request_notification_references_body_id :
    (addRequest "E1" none (some 2) (some 3) (some "vacation") dbOneEmployee).1.status = 201
    ∧ (addRequest "E1" none (some 2) (some 3) (some "vacation") dbOneEmployee).2.requests.map
        (fun r => r.id) = [1]
    ∧ (addRequest "E1" none (some 2) (some 3) (some "vacation") dbOneEmployee).2.notifications.map
        (fun n => (n.to_msin, n.request_id, n.message)) =
      [(some "M1", none, "New request from employee E1 for vacation")] := by
  decide

/-- Witness for C3 at a concrete call: M1 assigning E1 to week 3 crashes. -/
theorem schedule_assignment_always_crashes_witness :
    postSchedule ⟨"M1", "manager"⟩ (some "E1") (some "3") dbEmpty =
      ScheduleOutcome.crash "TypeError: Cannot read properties of undefined (reading 'role')" :=
  schedule_assignment_always_crashes ⟨"M1", "manager"⟩ (some "E1") (some "3") dbEmpty

/-- Witness for C8 at a concrete call: manager M1, no filters. -/
theorem department_shifts_always_500_witness :
    getShiftsDepartment ⟨"M1", "manager"⟩ none none dbOneEmployee =
      (⟨500, "Failed to get department shifts"⟩, dbOneEmployee) :=
  department_shifts_always_500 ⟨"M1", "manager"⟩ none none dbOneEmployee
